import Mathlib

/-!
# confluence-updater release pipeline (`.dagger/`)

A shallow embedding of the Dagger release module of `Kerwood/confluence-updater`:

* `utils.go`  : `getCargoVersion`
* `github.go` : `NewGithubClient`, `Github.WithAuthToken`, `Github.ListTags`,
  `Github.CreateRelease`, `Github.UploadAsset`
* `main.go`   : `BuildRuntimeImage`, `CheckVersionConflict`, `Release`

Everything the module calls outside the repository (the Dagger engine, the GitHub REST
client, the TOML library, the local file system, the clock, standard output) is a field of
`World`: a deterministic function of an explicit world state `σ`.  A Go function returning
`(T, error)` returns a pair whose second component is a `GoError` (`none` is `nil`).  Every
function of the embedding returns, next to its Go return value, the world state it leaves and
the list of external calls it made, in order (`Event`).
-/

namespace ConfluenceUpdater

/-! ## Data model -/

/-- Go's `error`: `none` is `nil`, `some msg` an error whose `Error()` text is `msg`. -/
abbrev GoError := Option String

/-- Handle of a `*dagger.Secret`. -/
structure Secret where
  id : Nat
deriving DecidableEq, Repr

/-- The `github.ListOptions` fields the module sets (`Page` is 0 until set). -/
structure ListOptions where
  Page : Nat
  PerPage : Nat
deriving DecidableEq, Repr

/-- The `github.RepositoryRelease` fields the module reads or writes; a Go pointer field
    is an `Option` (`none` is `nil`). -/
structure RepositoryRelease where
  ID : Option Int
  TagName : Option String
  TargetCommitish : Option String
  Name : Option String
  Draft : Option Bool
  Prerelease : Option Bool
  MakeLatest : Option String
  GenerateReleaseNotes : Option Bool
deriving DecidableEq, Repr

/-- The `Github` struct of `github.go`; of the `*github.Client` only the bearer token it
    carries is kept (`none`: the unauthenticated client of `github.NewClient(nil)`). -/
structure Github where
  client : Option String
  repo : String
  owner : String
deriving DecidableEq, Repr

/-- The description of a `*dagger.Container` assembled by the builder calls
    (`WithLabel`, `WithFile`, `WithDirectory`, `WithUser`, `WithEntrypoint`,
    `WithRegistryAuth`); each list is in call order. -/
structure Container where
  labels : List (String × String)
  files : List String
  user : String
  entrypoint : List String
  registryAuth : List (String × String × Secret)
deriving DecidableEq, Repr

/-- The part of `github.com/pelletier/go-toml` that `getCargoVersion` uses. -/
structure Toml where
  /-- The type `*toml.Tree`. -/
  Tree : Type
  /-- The non-nil values `Tree.Get` can return. -/
  Value : Type
  /-- The function `toml.Load`. -/
  Load : String → Except String Tree
  /-- The method `Tree.Get`; `none` is the `nil` interface value. -/
  Get : Tree → String → Option Value
  /-- The rendering `fmt.Sprintf("%v", value)`. -/
  Sprint : Value → String

/-- An external call made by the module. -/
inductive Call where
  /-- The call `srcDirectory.File(path).Contents(ctx)`. -/
  | contents (path : String)
  /-- The call `token.Plaintext(ctx)`. -/
  | plaintext (token : Secret)
  /-- The call `client.Repositories.ListTags(ctx, owner, repo, opts)`. -/
  | listTags (opts : ListOptions)
  /-- The entry of `BuildRuntimeImage`: the compile and image pipeline is assembled and
      stamped with `time.Now()`. -/
  | buildRuntimeImage (created : String)
  /-- The call `container.File("/confluence-updater").Export(ctx, path)`. -/
  | fileExport (path : String)
  /-- The call `client.Repositories.CreateRelease(ctx, owner, repo, draft)`. -/
  | createRelease (draft : RepositoryRelease)
  /-- The call `os.Open(filePath)`. -/
  | osOpen (filePath : String)
  /-- The call `client.Repositories.UploadReleaseAsset(ctx, owner, repo, id, opts, file)`. -/
  | uploadReleaseAsset (releaseID : Int) (name : String) (filePath : String)
  /-- The call `container.Publish(ctx, address)`. -/
  | publish (container : Container) (address : String)
  /-- The call `fmt.Println(imageInfo)`. -/
  | println (line : String)
deriving DecidableEq, Repr

/-- An external call together with the error it returned (`none`: it succeeded). -/
structure Event where
  call : Call
  err : GoError
deriving DecidableEq, Repr

/-- The world outside the module, as deterministic functions of a world state `σ`. -/
structure World (σ : Type) where
  /-- The TOML library. -/
  toml : Toml
  /-- Contents of a file of the source directory. -/
  contents : String → σ → (String × GoError) × σ
  /-- Plain text of a secret. -/
  plaintext : Secret → σ → (String × GoError) × σ
  /-- One page of tag names, with `resp.NextPage`. -/
  listTags : Github → ListOptions → σ → (List String × Nat × GoError) × σ
  /-- The rendering `time.Now().String()`. -/
  now : σ → String × σ
  /-- Export of the binary of a container to a local path; returns the exported path. -/
  fileExport : Container → String → σ → (String × GoError) × σ
  /-- Creation of a release; returns the release, the rendering of `resp`, the error. -/
  createRelease : Github → RepositoryRelease → σ → (RepositoryRelease × String × GoError) × σ
  /-- Opening of a local file for reading. -/
  osOpen : String → σ → GoError × σ
  /-- Upload of an opened file as the asset `name` of a release; returns the rendering of
      `resp` and the error. -/
  uploadReleaseAsset : Github → Int → String → String → σ → (String × GoError) × σ
  /-- Push of a container to a registry address; returns the image reference. -/
  publish : Container → String → σ → (String × GoError) × σ

/-- How a call of `Release` ends: it returns its `error`, or it panics (the dereference
    `*release.ID` of a nil `ID`). -/
inductive Outcome where
  | returned (err : GoError)
  | panicked
deriving DecidableEq, Repr

/-! ## Go library functions used by the module -/

/-- Go's `unicode.IsSpace`. -/
def isSpace (c : Char) : Bool :=
  c = '\t' || c = '\n' || c = '\x0b' || c = '\x0c' || c = '\r' || c = ' ' ||
  c.toNat = 0x85 || c.toNat = 0xA0 || c.toNat = 0x1680 ||
  (0x2000 ≤ c.toNat && c.toNat ≤ 0x200A) ||
  c.toNat = 0x2028 || c.toNat = 0x2029 || c.toNat = 0x202F || c.toNat = 0x205F ||
  c.toNat = 0x3000

/-- Go's `strings.TrimSpace`. -/
def TrimSpace (s : String) : String :=
  String.mk (((s.toList.dropWhile isSpace).reverse.dropWhile isSpace).reverse)

/-- The second result of Go's `filepath.Split`: what follows the last `/`. -/
def splitFile (path : String) : String :=
  String.mk ((path.toList.reverse.takeWhile (fun c => c ≠ '/')).reverse)

/-! ## utils.go -/

/-- The function `getCargoVersion` (utils.go 12-29), for the manifest at `cargoFile`. -/
def getCargoVersion {σ : Type} (W : World σ) (cargoFile : String) (s : σ) :
    (String × GoError) × σ × List Event :=
  match W.contents cargoFile s with
  | ((_, some err), s1) =>
    (("", some ("failed to read Cargo.toml: " ++ err)), s1, [⟨.contents cargoFile, some err⟩])
  | ((content, none), s1) =>
    match W.toml.Load content with
    | .error err =>
      (("", some ("failed to parse TOML: " ++ err)), s1, [⟨.contents cargoFile, none⟩])
    | .ok tree =>
      match W.toml.Get tree "package.version" with
      | none =>
        (("", some "version not found in Cargo.toml"), s1, [⟨.contents cargoFile, none⟩])
      | some version =>
        ((W.toml.Sprint version, none), s1, [⟨.contents cargoFile, none⟩])

/-! ## github.go -/

/-- The function `NewGithubClient` (github.go 31-37). -/
def NewGithubClient : Github :=
  { client := none, owner := "kerwood", repo := "confluence-updater" }

/-- The function `Github.WithAuthToken` (github.go 46-55): `.error err` is the return `nil, err`,
    `.ok g` the return `g, nil`. -/
def WithAuthToken {σ : Type} (W : World σ) (g : Github) (token : Secret) (s : σ) :
    Except String Github × σ × List Event :=
  match W.plaintext token s with
  | ((_, some err), s1) => (.error err, s1, [⟨.plaintext token, some err⟩])
  | ((plainTextToken, none), s1) =>
    (.ok { g with client := some (TrimSpace plainTextToken) }, s1, [⟨.plaintext token, none⟩])

/-- The `for` loop of `Github.ListTags` (github.go 69-83) from the state `opts`, `allTags`;
    `fuel` bounds the number of iterations, `none` means the bound was reached. -/
def ListTagsLoop {σ : Type} (W : World σ) (g : Github) :
    Nat → ListOptions → List String → σ → Option ((List String × GoError) × σ × List Event)
  | 0, _, _, _ => none
  | fuel + 1, opts, allTags, s =>
    match W.listTags g opts s with
    | ((_, _, some err), s1) =>
      some (([], some ("Failed to list tags: " ++ err)), s1, [⟨.listTags opts, some err⟩])
    | ((tags, nextPage, none), s1) =>
      if nextPage = 0 then
        some ((allTags ++ tags, none), s1, [⟨.listTags opts, none⟩])
      else
        match ListTagsLoop W g fuel { opts with Page := nextPage } (allTags ++ tags) s1 with
        | none => none
        | some (r, s2, evs) => some (r, s2, ⟨.listTags opts, none⟩ :: evs)

/-- The function `Github.ListTags` (github.go 64-85); the nil slice is `[]`. -/
def ListTags {σ : Type} (W : World σ) (g : Github) (fuel : Nat) (s : σ) :
    Option ((List String × GoError) × σ × List Event) :=
  ListTagsLoop W g fuel { Page := 0, PerPage := 100 } [] s

/-- The value `releaseDraft` of `Github.CreateRelease` (github.go 96-104). -/
def releaseDraft (tag : String) : RepositoryRelease :=
  { ID := none
    TagName := some tag
    TargetCommitish := some "main"
    Name := some ("confluence-updater-" ++ tag)
    Draft := some false
    Prerelease := some false
    MakeLatest := some "true"
    GenerateReleaseNotes := some true }

/-- The function `Github.CreateRelease` (github.go 94-112): `.error err` is the return `nil, err`,
    `.ok release` the return `release, nil`. -/
def CreateRelease {σ : Type} (W : World σ) (g : Github) (tag : String) (s : σ) :
    Except String RepositoryRelease × σ × List Event :=
  match W.createRelease g (releaseDraft tag) s with
  | ((_, resp, some err), s1) =>
    (.error ("failed to create release: " ++ err ++ ". Github response: " ++ resp), s1,
      [⟨.createRelease (releaseDraft tag), some err⟩])
  | ((release, _, none), s1) =>
    (.ok release, s1, [⟨.createRelease (releaseDraft tag), none⟩])

/-- The function `Github.UploadAsset` (github.go 121-137). -/
def UploadAsset {σ : Type} (W : World σ) (g : Github) (releaseID : Int) (filePath : String)
    (s : σ) : GoError × σ × List Event :=
  match W.osOpen filePath s with
  | (some err, s1) =>
    (some ("unable to read asset file: " ++ err), s1, [⟨.osOpen filePath, some err⟩])
  | (none, s1) =>
    let fileName := splitFile filePath
    match W.uploadReleaseAsset g releaseID fileName filePath s1 with
    | ((resp, some err), s2) =>
      (some ("failed to upload asset file: " ++ err ++ ". Github response: " ++ resp), s2,
        [⟨.osOpen filePath, none⟩, ⟨.uploadReleaseAsset releaseID fileName filePath, some err⟩])
    | ((_, none), s2) =>
      (none, s2,
        [⟨.osOpen filePath, none⟩, ⟨.uploadReleaseAsset releaseID fileName filePath, none⟩])

/-! ## Dagger builder methods used by the module -/

/-- The method `Container.WithLabel`. -/
def Container.WithLabel (c : Container) (name value : String) : Container :=
  { c with labels := c.labels ++ [(name, value)] }

/-- The method `Container.WithRegistryAuth`. -/
def Container.WithRegistryAuth (c : Container) (address username : String) (secret : Secret) :
    Container :=
  { c with registryAuth := c.registryAuth ++ [(address, username, secret)] }

/-! ## main.go -/

/-- The function `BuildRuntimeImage` (main.go 70-96): the container description it returns; the build
    itself is run by the engine when the container is exported or published. -/
def BuildRuntimeImage {σ : Type} (W : World σ) (s : σ) : Container × σ × List Event :=
  match W.now s with
  | (created, s1) =>
    ({ labels := [("org.opencontainers.image.source",
                    "https://github.com/kerwood/confluence-updater"),
                  ("org.opencontainers.image.created", created)]
       files := ["/confluence-updater", "/etc/passwd", "/etc/group", "/etc/ssl/certs"]
       user := "1001"
       entrypoint := ["/confluence-updater"]
       registryAuth := [] },
      s1, [⟨.buildRuntimeImage created, none⟩])

/-- The error text of main.go 181:
    `fmt.Errorf("Conflict: Git tag '%s' already exists and matches ... (%s)", tag, version)`. -/
def conflictError (tag version : String) : String :=
  "Conflict: Git tag '" ++ tag ++
    "' already exists and matches the declared version in Cargo.toml (" ++ version ++ ")"

/-- The `for _, x := range tags` loop of `CheckVersionConflict` (main.go 178-185) with the
    `return` that follows it. -/
def checkTags (version : String) : List String → String × GoError
  | [] => (version, none)
  | x :: rest =>
    let tag := "v" ++ version
    if x = tag then ("", some (conflictError tag version)) else checkTags version rest

/-- The function `CheckVersionConflict` (main.go 154-186); `none` means the tag listing did not end
    within `fuel` page fetches. -/
def CheckVersionConflict {σ : Type} (W : World σ) (fuel : Nat) (ghAuthToken : Secret) (s : σ) :
    Option ((String × GoError) × σ × List Event) :=
  match getCargoVersion W "./Cargo.toml" s with
  | ((_, some err), s1, ev1) => some (("", some err), s1, ev1)
  | ((version, none), s1, ev1) =>
    match WithAuthToken W NewGithubClient ghAuthToken s1 with
    | (.error err, s2, ev2) => some (("", some err), s2, ev1 ++ ev2)
    | (.ok github, s2, ev2) =>
      match ListTags W github fuel s2 with
      | none => none
      | some ((_, some err), s3, ev3) => some (("", some err), s3, ev1 ++ ev2 ++ ev3)
      | some ((tags, none), s3, ev3) => some (checkTags version tags, s3, ev1 ++ ev2 ++ ev3)

/-- The `for _, tag := range []string{...}` loop of `Release` (main.go 138-144). -/
def publishTags {σ : Type} (W : World σ) (container : Container) :
    List String → σ → GoError × σ × List Event
  | [], s => (none, s, [])
  | tag :: rest, s =>
    match W.publish container ("ghcr.io/kerwood/confluence-updater:" ++ tag) s with
    | ((_, some err), s1) =>
      (some err, s1,
        [⟨.publish container ("ghcr.io/kerwood/confluence-updater:" ++ tag), some err⟩])
    | ((imageInfo, none), s1) =>
      match publishTags W container rest s1 with
      | (r, s2, evs) =>
        (r, s2, ⟨.publish container ("ghcr.io/kerwood/confluence-updater:" ++ tag), none⟩ ::
          ⟨.println imageInfo, none⟩ :: evs)

/-- The function `Release` (main.go 103-147); `none` means the tag listing did not end within `fuel`
    page fetches. -/
def Release {σ : Type} (W : World σ) (fuel : Nat) (ghUser : String) (ghAuthToken : Secret)
    (s : σ) : Option (Outcome × σ × List Event) :=
  match CheckVersionConflict W fuel ghAuthToken s with
  | none => none
  | some ((_, some err), s1, ev1) => some (.returned (some err), s1, ev1)
  | some ((cargoVersion, none), s1, ev1) =>
    match BuildRuntimeImage W s1 with
    | (built, s2, ev2) =>
      let container : Container :=
        (built.WithLabel "org.opencontainers.image.version" cargoVersion).WithRegistryAuth
          "ghcr.io" ghUser ghAuthToken
      match W.fileExport container "./confluence-updater-x86_64-unknown-linux-musl" s2 with
      | ((binaryExportedPath, exportErr), s3) =>
        let ev3 : List Event :=
          [⟨.fileExport "./confluence-updater-x86_64-unknown-linux-musl", exportErr⟩]
        match WithAuthToken W NewGithubClient ghAuthToken s3 with
        | (.error err, s4, ev4) => some (.returned (some err), s4, ev1 ++ ev2 ++ ev3 ++ ev4)
        | (.ok github, s4, ev4) =>
          match CreateRelease W github ("v" ++ cargoVersion) s4 with
          | (.error err, s5, ev5) =>
            some (.returned (some err), s5, ev1 ++ ev2 ++ ev3 ++ ev4 ++ ev5)
          | (.ok release, s5, ev5) =>
            match release.ID with
            | none => some (.panicked, s5, ev1 ++ ev2 ++ ev3 ++ ev4 ++ ev5)
            | some releaseID =>
              match UploadAsset W github releaseID binaryExportedPath s5 with
              | (some err, s6, ev6) =>
                some (.returned (some err), s6, ev1 ++ ev2 ++ ev3 ++ ev4 ++ ev5 ++ ev6)
              | (none, s6, ev6) =>
                match publishTags W container ["latest", cargoVersion] s6 with
                | (r, s7, ev7) =>
                  some (.returned r, s7, ev1 ++ ev2 ++ ev3 ++ ev4 ++ ev5 ++ ev6 ++ ev7)

/-! ## A simulated world

A TOML reader for the fragment "section headers and string-valued keys", a paginated tag
host, and a `World` over them whose failures are switched on by a `Sim` record.  They serve
as concrete inputs on which the embedding is evaluated. -/

/-- Strip blanks at both ends. -/
def simTrim (cs : List Char) : List Char :=
  ((cs.dropWhile (fun c => c = ' ')).reverse.dropWhile (fun c => c = ' ')).reverse

/-- Split a text at its newlines. -/
def simLines : List Char → List (List Char)
  | [] => [[]]
  | c :: cs =>
    if c = '\n' then [] :: simLines cs
    else
      match simLines cs with
      | [] => [[c]]
      | l :: ls => (c :: l) :: ls

/-- The entries `(key path, string value)` of the lines of a manifest, below `sect`. -/
def simEntries (sect : String) : List (List Char) → Except String (List (String × String))
  | [] => .ok []
  | line :: rest =>
    let l := simTrim line
    if l = [] then simEntries sect rest
    else if l.head? = some '[' ∧ l.getLast? = some ']' then
      simEntries (String.mk l.tail.dropLast) rest
    else
      match l.span (fun c => c ≠ '=') with
      | (k, _ :: v) =>
        let val := simTrim v
        if val.head? = some '"' ∧ val.getLast? = some '"' ∧ 2 ≤ val.length then
          match simEntries sect rest with
          | .error e => .error e
          | .ok es =>
            let key := String.mk (simTrim k)
            .ok ((if sect = "" then key else sect ++ "." ++ key,
                  String.mk val.tail.dropLast) :: es)
        else .error "unsupported value"
      | (_, []) => .error "expected key = value"

/-- The simulated TOML library: a tree is its list of `(key path, string value)`. -/
def simToml : Toml where
  Tree := List (String × String)
  Value := String
  Load := fun text => simEntries "" (simLines text.toList)
  Get := fun tree key => tree.lookup key
  Sprint := fun value => value

/-- The page a paginated host holding `pages` serves for `opts.Page = page` (0 and 1 both
    ask for the first page), with the number of the next page, 0 after the last. -/
def servePage (pages : List (List String)) (page : Nat) : List String × Nat :=
  (pages.getD (page - 1) [], if page - 1 + 1 < pages.length then page - 1 + 2 else 0)

/-- Switches of the simulated world. -/
structure Sim where
  manifest : String
  pages : List (List String)
  failPage : Option Nat
  exportFails : Bool
  createFails : Bool
  uploadFails : Bool
  publishFails : List String

/-- The simulated world; its state counts the external calls made. -/
def simWorld (c : Sim) : World Nat where
  toml := simToml
  contents := fun path n =>
    if path = "./Cargo.toml" then ((c.manifest, none), n + 1)
    else (("", some "no such file"), n + 1)
  plaintext := fun _ n => ((" ghp_simulated\n", none), n + 1)
  listTags := fun _ opts n =>
    if c.failPage = some (opts.Page - 1) then (([], 0, some "502 Bad Gateway"), n + 1)
    else (((servePage c.pages opts.Page).1, (servePage c.pages opts.Page).2, none), n + 1)
  now := fun n => ("2025-01-01 00:00:00 +0000 UTC", n + 1)
  fileExport := fun _ path n =>
    if c.exportFails then (("", some "export failed"), n + 1) else ((path, none), n + 1)
  createRelease := fun _ draft n =>
    if c.createFails then ((draft, "422", some "Validation Failed"), n + 1)
    else (({ draft with ID := some 42 }, "201", none), n + 1)
  osOpen := fun path n =>
    if path = "" then (some "open : no such file or directory", n + 1) else (none, n + 1)
  uploadReleaseAsset := fun _ _ _ _ n =>
    if c.uploadFails then (("422", some "upload rejected"), n + 1) else (("201", none), n + 1)
  publish := fun _ address n =>
    if address ∈ c.publishFails then (("", some ("push failed: " ++ address)), n + 1)
    else ((address ++ "@sha256:0", none), n + 1)

/-- A manifest declaring version 2.0.1. -/
def manifest201 : String := "[package]\nname = \"confluence-updater\"\nversion = \"2.0.1\"\n"

/-- The simulated world in which every stage succeeds, over the given tag pages. -/
def simOk (pages : List (List String)) : Sim :=
  { manifest := manifest201, pages := pages, failPage := none, exportFails := false,
    createFails := false, uploadFails := false, publishFails := [] }

/-- The value of `opts.Page` with which `ListTags` asks for the page of index `i`: the
    first request leaves `Page` unset (0), the later ones carry the `NextPage` received. -/
def pageNumber (i : Nat) : Nat := if i = 0 then 0 else i + 1

/-- The `i`-th tag of the simulated host of 150 tags. -/
def simTag (i : Nat) : String := String.mk ('t' :: List.replicate i 'x')

/-- The simulated host of 150 tags: a page of 100 tags, then a page of 50. -/
def pages150 : List (List String) :=
  [(List.range 100).map simTag, (List.range' 100 50).map simTag]

/-- A manifest whose `package.version` is the empty string. -/
def manifestEmptyVersion : String := "[package]\nname = \"confluence-updater\"\nversion = \"\"\n"

/-- The container description `BuildRuntimeImage` returns in the simulated world. -/
def simBuilt : Container :=
  { labels := [("org.opencontainers.image.source",
                 "https://github.com/kerwood/confluence-updater"),
               ("org.opencontainers.image.created", "2025-01-01 00:00:00 +0000 UTC")]
    files := ["/confluence-updater", "/etc/passwd", "/etc/group", "/etc/ssl/certs"]
    user := "1001"
    entrypoint := ["/confluence-updater"]
    registryAuth := [] }

/-- The authenticated client of the simulated world. -/
def simGithub : Github :=
  { client := some "ghp_simulated", owner := "kerwood", repo := "confluence-updater" }

/-- The calls of the conflict check in the simulated world over one page of tags. -/
def simCheckEvents : List Event :=
  [⟨.contents "./Cargo.toml", none⟩, ⟨.plaintext ⟨0⟩, none⟩, ⟨.listTags ⟨0, 100⟩, none⟩]

/-! ## Kinds of external calls -/

/-- The calls of the conflict check: manifest read, secret read, tag listing. -/
def Call.isCheck : Call → Bool
  | .contents _ => true
  | .plaintext _ => true
  | .listTags _ => true
  | _ => false

/-- The image build is requested. -/
def Call.isBuild : Call → Bool
  | .buildRuntimeImage _ => true
  | _ => false

/-- The binary is exported to local storage. -/
def Call.isExport : Call → Bool
  | .fileExport _ => true
  | _ => false

/-- The host is asked to create a release. -/
def Call.isCreateRelease : Call → Bool
  | .createRelease _ => true
  | _ => false

/-- A call made by `UploadAsset`: opening the file, uploading it. -/
def Call.isUploadAsset : Call → Bool
  | .osOpen _ => true
  | .uploadReleaseAsset _ _ _ => true
  | _ => false

/-- An image is pushed to the registry. -/
def Call.isPublish : Call → Bool
  | .publish _ _ => true
  | _ => false

/-- The calls that change what the version-control host or the registry shows. -/
def Call.isHostVisible : Call → Bool
  | .createRelease _ => true
  | .uploadReleaseAsset _ _ _ => true
  | .publish _ _ => true
  | _ => false

/-! ## The calls each function makes -/

theorem getCargoVersion_calls {σ : Type} (W : World σ) (cargoFile : String) (s : σ) :
    ∀ e ∈ (getCargoVersion W cargoFile s).2.2, e.call = .contents cargoFile := by
  unfold getCargoVersion
  split
  · simp
  · split
    · simp
    · split <;> simp

theorem WithAuthToken_calls {σ : Type} (W : World σ) (g : Github) (token : Secret) (s : σ) :
    ∀ e ∈ (WithAuthToken W g token s).2.2, e.call = .plaintext token := by
  unfold WithAuthToken
  split <;> simp

theorem ListTagsLoop_calls {σ : Type} (W : World σ) (g : Github) (fuel : Nat) :
    ∀ (opts : ListOptions) (allTags : List String) (s : σ)
      (r : (List String × GoError) × σ × List Event),
      ListTagsLoop W g fuel opts allTags s = some r →
      ∀ e ∈ r.2.2, ∃ o, e.call = .listTags o := by
  induction fuel with
  | zero => intro opts allTags s r h; simp [ListTagsLoop] at h
  | succ n ih =>
    intro opts allTags s r h
    unfold ListTagsLoop at h
    split at h
    · cases h; simp
    · split at h
      · cases h; simp
      · split at h
        · cases h
        · next r2 s2 evs heq =>
          cases h
          intro e he
          simp only [List.mem_cons] at he
          rcases he with rfl | he
          · exact ⟨opts, rfl⟩
          · exact ih _ _ _ _ heq e he

theorem CreateRelease_calls {σ : Type} (W : World σ) (g : Github) (tag : String) (s : σ) :
    ∀ e ∈ (CreateRelease W g tag s).2.2, e.call.isCreateRelease = true := by
  unfold CreateRelease
  split <;> simp [Call.isCreateRelease]

theorem UploadAsset_calls {σ : Type} (W : World σ) (g : Github) (releaseID : Int)
    (filePath : String) (s : σ) :
    ∀ e ∈ (UploadAsset W g releaseID filePath s).2.2, e.call.isUploadAsset = true := by
  unfold UploadAsset
  split
  · simp [Call.isUploadAsset]
  · simp only
    split <;> simp [Call.isUploadAsset]

theorem BuildRuntimeImage_calls {σ : Type} (W : World σ) (s : σ) :
    ∀ e ∈ (BuildRuntimeImage W s).2.2, e.call.isBuild = true := by
  unfold BuildRuntimeImage
  simp [Call.isBuild]

theorem CheckVersionConflict_calls {σ : Type} (W : World σ) (fuel : Nat) (tok : Secret)
    (s : σ) (r : (String × GoError) × σ × List Event)
    (h : CheckVersionConflict W fuel tok s = some r) :
    ∀ e ∈ r.2.2, e.call.isCheck = true := by
  have h1 := getCargoVersion_calls W "./Cargo.toml" s
  unfold CheckVersionConflict at h
  split at h
  · next heq =>
    cases h
    rw [heq] at h1
    intro e he
    rw [h1 e he]; rfl
  · next v s1 ev1 heq =>
    rw [heq] at h1
    have h2 := WithAuthToken_calls W NewGithubClient tok s1
    have hc1 : ∀ e ∈ ev1, e.call.isCheck = true := by
      intro e he; rw [h1 e he]; rfl
    split at h
    · next heq2 =>
      cases h
      rw [heq2] at h2
      intro e he
      simp only [List.mem_append] at he
      rcases he with he | he
      · exact hc1 e he
      · rw [h2 e he]; rfl
    · next gh s2 ev2 heq2 =>
      rw [heq2] at h2
      have hc2 : ∀ e ∈ ev2, e.call.isCheck = true := by
        intro e he; rw [h2 e he]; rfl
      have key : ∀ (x : String × GoError) (s3 : σ) (ev3 : List Event)
          (q : (List String × GoError) × σ × List Event),
          ListTags W gh fuel s2 = some q → q.2.2 = ev3 →
          ∀ e ∈ ((x, s3, ev1 ++ ev2 ++ ev3) : (String × GoError) × σ × List Event).2.2,
            e.call.isCheck = true := by
        intro x s3 ev3 q hq hev e he
        simp only [List.mem_append] at he
        rcases he with (he | he) | he
        · exact hc1 e he
        · exact hc2 e he
        · subst hev
          obtain ⟨o, ho⟩ := ListTagsLoop_calls W gh fuel _ _ _ _ hq e he
          rw [ho]; rfl
      split at h
      · cases h
      · next heq3 => cases h; exact key _ _ _ _ heq3 rfl
      · next heq3 => cases h; exact key _ _ _ _ heq3 rfl

theorem checkTags_conflict (version : String) (tags : List String)
    (h : "v" ++ version ∈ tags) :
    checkTags version tags = ("", some (conflictError ("v" ++ version) version)) := by
  induction tags with
  | nil => simp at h
  | cons x rest ih =>
    simp only [checkTags]
    by_cases hx : x = "v" ++ version
    · simp [hx]
    · simp only [hx, if_false]
      simp only [List.mem_cons] at h
      rcases h with h | h
      · exact absurd h.symm hx
      · exact ih h

theorem checkTags_free (version : String) (tags : List String)
    (h : "v" ++ version ∉ tags) : checkTags version tags = (version, none) := by
  induction tags with
  | nil => rfl
  | cons x rest ih =>
    simp only [List.mem_cons, not_or] at h
    simp only [checkTags]
    have hx : ¬ x = "v" ++ version := fun hx => h.1 hx.symm
    simp only [hx, if_false]
    exact ih h.2

/-! ## C1: the version-conflict check -/

/-- C1. When the manifest read yields version `v`, the authentication succeeds and the tag
    listing returns the tags `T`, `CheckVersionConflict` returns: it fails with the conflict
    error naming the tag and the version exactly when the string "v" followed by `v` is an
    element of `T`, and when it is not an element it returns `v` itself with a nil error. -/
theorem CheckVersionConflict_conflict_iff {σ : Type} (W : World σ) (fuel : Nat) (tok : Secret)
    (s s1 s2 s3 : σ) (ev1 ev2 ev3 : List Event) (g : Github) (v : String) (T : List String)
    (hver : getCargoVersion W "./Cargo.toml" s = ((v, none), s1, ev1))
    (hauth : WithAuthToken W NewGithubClient tok s1 = (.ok g, s2, ev2))
    (hlist : ListTags W g fuel s2 = some ((T, none), s3, ev3)) :
    ∃ ret : String × GoError,
      CheckVersionConflict W fuel tok s = some (ret, s3, ev1 ++ ev2 ++ ev3) ∧
      (ret.2 = some (conflictError ("v" ++ v) v) ↔ "v" ++ v ∈ T) ∧
      (ret.2 ≠ none ↔ "v" ++ v ∈ T) ∧
      ("v" ++ v ∉ T → ret = (v, none)) := by
  refine ⟨checkTags v T, ?_, ?_, ?_, ?_⟩
  · simp [CheckVersionConflict, hver, hauth, hlist]
  · by_cases hmem : "v" ++ v ∈ T
    · simp [checkTags_conflict v T hmem, hmem]
    · simp [checkTags_free v T hmem, hmem]
  · by_cases hmem : "v" ++ v ∈ T
    · simp [checkTags_conflict v T hmem, hmem]
    · simp [checkTags_free v T hmem, hmem]
  · intro hmem
    exact checkTags_free v T hmem

/-- C1 at version 2.0.1 over the tag pages `["v1.0.0"]`, `["v2.0.0"]`. -/
theorem CheckVersionConflict_conflict_iff_witness :
    ∃ ret : String × GoError,
      CheckVersionConflict (simWorld (simOk [["v1.0.0"], ["v2.0.0"]])) 2 ⟨0⟩ 0 =
        some (ret, 4,
          [⟨.contents "./Cargo.toml", none⟩] ++ [⟨.plaintext ⟨0⟩, none⟩] ++
          [⟨.listTags ⟨0, 100⟩, none⟩, ⟨.listTags ⟨2, 100⟩, none⟩]) ∧
      (ret.2 = some (conflictError ("v" ++ "2.0.1") "2.0.1") ↔
        "v" ++ "2.0.1" ∈ ["v1.0.0", "v2.0.0"]) ∧
      (ret.2 ≠ none ↔ "v" ++ "2.0.1" ∈ ["v1.0.0", "v2.0.0"]) ∧
      ("v" ++ "2.0.1" ∉ ["v1.0.0", "v2.0.0"] → ret = ("2.0.1", none)) :=
  CheckVersionConflict_conflict_iff (simWorld (simOk [["v1.0.0"], ["v2.0.0"]])) 2 ⟨0⟩ 0 1 2 4
    [⟨.contents "./Cargo.toml", none⟩] [⟨.plaintext ⟨0⟩, none⟩]
    [⟨.listTags ⟨0, 100⟩, none⟩, ⟨.listTags ⟨2, 100⟩, none⟩]
    { NewGithubClient with client := some "ghp_simulated" } "2.0.1" ["v1.0.0", "v2.0.0"]
    (by decide) (by rfl) (by decide)

/-! ## C2: a conflict stops the release before any side effect -/

/-- C2. When the manifest declares version `v` and the tag listing returns a list `T` that
    contains the string "v" followed by `v`, `Release` returns the conflict error, and the
    calls of the run are those of the conflict check alone: no image build, no export of the
    binary, no release creation, no asset upload and no image publish occur, and the world
    is left as the tag listing left it. -/
theorem Release_conflict_no_side_effect {σ : Type} (W : World σ) (fuel : Nat)
    (ghUser : String) (tok : Secret) (s s1 s2 s3 : σ) (ev1 ev2 ev3 : List Event) (g : Github)
    (v : String) (T : List String)
    (hver : getCargoVersion W "./Cargo.toml" s = ((v, none), s1, ev1))
    (hauth : WithAuthToken W NewGithubClient tok s1 = (.ok g, s2, ev2))
    (hlist : ListTags W g fuel s2 = some ((T, none), s3, ev3))
    (hmem : "v" ++ v ∈ T) :
    Release W fuel ghUser tok s =
        some (.returned (some (conflictError ("v" ++ v) v)), s3, ev1 ++ ev2 ++ ev3) ∧
      ∀ e ∈ ev1 ++ ev2 ++ ev3,
        e.call.isBuild = false ∧ e.call.isExport = false ∧ e.call.isCreateRelease = false ∧
        e.call.isUploadAsset = false ∧ e.call.isPublish = false := by
  have hchk : CheckVersionConflict W fuel tok s =
      some (("", some (conflictError ("v" ++ v) v)), s3, ev1 ++ ev2 ++ ev3) := by
    simp [CheckVersionConflict, hver, hauth, hlist, checkTags_conflict v T hmem]
  refine ⟨by simp [Release, hchk], ?_⟩
  intro e he
  have hk := CheckVersionConflict_calls W fuel tok s _ hchk e he
  cases hc : e.call <;> simp_all [Call.isCheck, Call.isBuild, Call.isExport,
    Call.isCreateRelease, Call.isUploadAsset, Call.isPublish]

/-- C2 at version 2.0.1 with the existing tags `["v1.0.0", "v2.0.1"]`. -/
theorem Release_conflict_no_side_effect_witness :
    Release (simWorld (simOk [["v1.0.0", "v2.0.1"]])) 1 "kerwood" ⟨0⟩ 0 =
        some (.returned (some (conflictError ("v" ++ "2.0.1") "2.0.1")), 3,
          [⟨.contents "./Cargo.toml", none⟩] ++ [⟨.plaintext ⟨0⟩, none⟩] ++
          [⟨.listTags ⟨0, 100⟩, none⟩]) ∧
      ∀ e ∈ [(⟨.contents "./Cargo.toml", none⟩ : Event)] ++ [⟨.plaintext ⟨0⟩, none⟩] ++
          [⟨.listTags ⟨0, 100⟩, none⟩],
        e.call.isBuild = false ∧ e.call.isExport = false ∧ e.call.isCreateRelease = false ∧
        e.call.isUploadAsset = false ∧ e.call.isPublish = false :=
  Release_conflict_no_side_effect (simWorld (simOk [["v1.0.0", "v2.0.1"]])) 1 "kerwood" ⟨0⟩
    0 1 2 3 [⟨.contents "./Cargo.toml", none⟩] [⟨.plaintext ⟨0⟩, none⟩]
    [⟨.listTags ⟨0, 100⟩, none⟩] { NewGithubClient with client := some "ghp_simulated" }
    "2.0.1" ["v1.0.0", "v2.0.1"] (by decide) (by rfl) (by decide) (by decide)

/-! ## C6: a failed release creation stops the release -/

/-- C6. When the conflict check passes with version `v` and `CreateRelease` fails with the
    error `e`, `Release` returns `e`, the failed creation is the last call of the run, and
    no call of `UploadAsset` and no image publish is made. -/
theorem Release_createRelease_fails {σ : Type} (W : World σ) (fuel : Nat) (ghUser : String)
    (tok : Secret) (s s1 s2 s3 s4 s5 : σ) (ev1 ev2 ev4 ev5 : List Event) (v : String)
    (built : Container) (path : String) (exportErr : GoError) (g : Github) (e : String)
    (hcheck : CheckVersionConflict W fuel tok s = some ((v, none), s1, ev1))
    (hbuild : BuildRuntimeImage W s1 = (built, s2, ev2))
    (hexport : W.fileExport
        ((built.WithLabel "org.opencontainers.image.version" v).WithRegistryAuth
          "ghcr.io" ghUser tok)
        "./confluence-updater-x86_64-unknown-linux-musl" s2 = ((path, exportErr), s3))
    (hauth : WithAuthToken W NewGithubClient tok s3 = (.ok g, s4, ev4))
    (hcreate : CreateRelease W g ("v" ++ v) s4 = (.error e, s5, ev5)) :
    Release W fuel ghUser tok s =
        some (.returned (some e), s5,
          ev1 ++ ev2 ++ [⟨.fileExport "./confluence-updater-x86_64-unknown-linux-musl",
            exportErr⟩] ++ ev4 ++ ev5) ∧
      ∀ ev ∈ ev1 ++ ev2 ++ [⟨.fileExport "./confluence-updater-x86_64-unknown-linux-musl",
            exportErr⟩] ++ ev4 ++ ev5,
        ev.call.isUploadAsset = false ∧ ev.call.isPublish = false := by
  refine ⟨by simp [Release, hcheck, hbuild, hexport, hauth, hcreate], ?_⟩
  intro ev hev
  have k1 := CheckVersionConflict_calls W fuel tok s _ hcheck
  have k2 := BuildRuntimeImage_calls W s1
  have k4 := WithAuthToken_calls W NewGithubClient tok s3
  have k5 := CreateRelease_calls W g ("v" ++ v) s4
  rw [hbuild] at k2
  rw [hauth] at k4
  rw [hcreate] at k5
  simp only [List.mem_append, List.mem_singleton] at hev
  rcases hev with (((h | h) | h) | h) | h
  · have := k1 ev h
    cases hc : ev.call <;> simp_all [Call.isCheck, Call.isUploadAsset, Call.isPublish]
  · have := k2 ev h
    cases hc : ev.call <;> simp_all [Call.isBuild, Call.isUploadAsset, Call.isPublish]
  · subst h
    simp [Call.isUploadAsset, Call.isPublish]
  · have := k4 ev h
    simp [this, Call.isUploadAsset, Call.isPublish]
  · have := k5 ev h
    cases hc : ev.call <;> simp_all [Call.isCreateRelease, Call.isUploadAsset, Call.isPublish]

/-! ## The calls of `Release` before the release is created -/

theorem CreateRelease_ok_events {σ : Type} (W : World σ) (g : Github) (tag : String)
    (s s1 : σ) (release : RepositoryRelease) (evs : List Event)
    (h : CreateRelease W g tag s = (.ok release, s1, evs)) :
    evs = [⟨.createRelease (releaseDraft tag), none⟩] := by
  unfold CreateRelease at h
  split at h
  · simp at h
  · simp only [Prod.mk.injEq] at h
    exact h.2.2.symm

theorem UploadAsset_ok_events {σ : Type} (W : World σ) (g : Github) (releaseID : Int)
    (filePath : String) (s s1 : σ) (evs : List Event)
    (h : UploadAsset W g releaseID filePath s = (none, s1, evs)) :
    evs = [⟨.osOpen filePath, none⟩,
      ⟨.uploadReleaseAsset releaseID (splitFile filePath) filePath, none⟩] := by
  unfold UploadAsset at h
  split at h
  · simp at h
  · simp only at h
    split at h
    · simp at h
    · simp only [Prod.mk.injEq] at h
      exact h.2.2.symm

theorem UploadAsset_fail_events {σ : Type} (W : World σ) (g : Github) (releaseID : Int)
    (filePath : String) (s s1 : σ) (e : String) (evs : List Event)
    (h : UploadAsset W g releaseID filePath s = (some e, s1, evs)) :
    ∃ pre last, evs = pre ++ [last] ∧ last.call.isUploadAsset = true ∧ last.err ≠ none ∧
      ∀ x ∈ pre, x.err = none := by
  unfold UploadAsset at h
  split at h
  · simp only [Prod.mk.injEq] at h
    obtain ⟨_, _, h3⟩ := h
    subst h3
    refine ⟨[], _, rfl, ?_, ?_, ?_⟩
    · rfl
    · simp
    · simp
  · simp only at h
    split at h
    · simp only [Prod.mk.injEq] at h
      obtain ⟨_, _, h3⟩ := h
      subst h3
      refine ⟨[_], _, rfl, ?_, ?_, ?_⟩
      · rfl
      · simp
      · simp
    · simp at h

theorem Release_prefix_calls {σ : Type} (W : World σ) (fuel : Nat) (tok : Secret)
    (s s1 s2 s3 s4 : σ) (ev1 ev2 ev4 : List Event) (ret : String × GoError)
    (built : Container) (g : Except String Github) (exportErr : GoError)
    (hcheck : CheckVersionConflict W fuel tok s = some (ret, s1, ev1))
    (hbuild : BuildRuntimeImage W s1 = (built, s2, ev2))
    (hauth : WithAuthToken W NewGithubClient tok s3 = (g, s4, ev4)) :
    ∀ ev ∈ ev1 ++ ev2 ++ [⟨.fileExport "./confluence-updater-x86_64-unknown-linux-musl",
        exportErr⟩] ++ ev4,
      ev.call.isCreateRelease = false ∧ ev.call.isUploadAsset = false ∧
      ev.call.isPublish = false ∧ ev.call.isHostVisible = false := by
  intro ev hev
  have k1 := CheckVersionConflict_calls W fuel tok s _ hcheck
  have k2 := BuildRuntimeImage_calls W s1
  have k4 := WithAuthToken_calls W NewGithubClient tok s3
  rw [hbuild] at k2
  rw [hauth] at k4
  simp only [List.mem_append, List.mem_singleton] at hev
  rcases hev with ((h | h) | h) | h
  · have := k1 ev h
    cases hc : ev.call <;>
      simp_all [Call.isCheck, Call.isCreateRelease, Call.isUploadAsset, Call.isPublish,
        Call.isHostVisible]
  · have := k2 ev h
    cases hc : ev.call <;>
      simp_all [Call.isBuild, Call.isCreateRelease, Call.isUploadAsset, Call.isPublish,
        Call.isHostVisible]
  · subst h
    simp [Call.isCreateRelease, Call.isUploadAsset, Call.isPublish, Call.isHostVisible]
  · have := k4 ev h
    simp [this, Call.isCreateRelease, Call.isUploadAsset, Call.isPublish, Call.isHostVisible]

theorem filter_eq_nil_of_false {α : Type} (p : α → Bool) (l : List α)
    (h : ∀ x ∈ l, p x = false) : l.filter p = [] := by
  induction l with
  | nil => rfl
  | cons a t ih =>
    have ha := h a (List.mem_cons_self a t)
    simp only [List.filter, ha]
    exact ih (fun x hx => h x (List.mem_cons_of_mem a hx))

theorem UploadAsset_error_distinct {σ : Type} (W : World σ) (g : Github) (releaseID : Int)
    (filePath : String) (s s1 : σ) (e : String) (evs : List Event)
    (h : UploadAsset W g releaseID filePath s = (some e, s1, evs)) :
    ∀ err resp : String,
      e ≠ "failed to create release: " ++ err ++ ". Github response: " ++ resp := by
  intro err resp he
  unfold UploadAsset at h
  split at h
  · simp only [Prod.mk.injEq, Option.some.injEq] at h
    have := congrArg String.data (h.1.trans he)
    simp [String.data_append] at this
  · simp only at h
    split at h
    · simp only [Prod.mk.injEq, Option.some.injEq] at h
      have := congrArg String.data (h.1.trans he)
      simp [String.data_append] at this
    · simp at h

/-! ## C4: a failed asset upload after the release was created -/

/-- C4. When the conflict check passes with version `v`, `CreateRelease` succeeds with a
    release of ID `releaseID` and `UploadAsset` then fails with the error `e`, `Release`
    returns `e`, which is not of the form of a release-creation error; the calls of the run
    end with the failed call of `UploadAsset`, so no call follows it: among all calls of the
    run exactly one is a release creation (the successful one, no retry), and none is an
    image publish.  (The module has no call that deletes a release.) -/
theorem Release_uploadAsset_fails {σ : Type} (W : World σ) (fuel : Nat) (ghUser : String)
    (tok : Secret) (s s1 s2 s3 s4 s5 s6 : σ) (ev1 ev2 ev4 ev5 ev6 : List Event) (v : String)
    (built : Container) (path : String) (exportErr : GoError) (g : Github)
    (release : RepositoryRelease) (releaseID : Int) (e : String)
    (hcheck : CheckVersionConflict W fuel tok s = some ((v, none), s1, ev1))
    (hbuild : BuildRuntimeImage W s1 = (built, s2, ev2))
    (hexport : W.fileExport
        ((built.WithLabel "org.opencontainers.image.version" v).WithRegistryAuth
          "ghcr.io" ghUser tok)
        "./confluence-updater-x86_64-unknown-linux-musl" s2 = ((path, exportErr), s3))
    (hauth : WithAuthToken W NewGithubClient tok s3 = (.ok g, s4, ev4))
    (hcreate : CreateRelease W g ("v" ++ v) s4 = (.ok release, s5, ev5))
    (hid : release.ID = some releaseID)
    (hupload : UploadAsset W g releaseID path s5 = (some e, s6, ev6)) :
    ∃ trace : List Event,
      Release W fuel ghUser tok s = some (.returned (some e), s6, trace) ∧
      trace = ev1 ++ ev2 ++ [⟨.fileExport "./confluence-updater-x86_64-unknown-linux-musl",
            exportErr⟩] ++ ev4 ++ ev5 ++ ev6 ∧
      (∀ err resp : String,
        e ≠ "failed to create release: " ++ err ++ ". Github response: " ++ resp) ∧
      (∃ pre last, ev6 = pre ++ [last] ∧ last.call.isUploadAsset = true ∧ last.err ≠ none) ∧
      trace.filter (fun ev => ev.call.isCreateRelease) =
        [⟨.createRelease (releaseDraft ("v" ++ v)), none⟩] ∧
      ∀ ev ∈ trace, ev.call.isPublish = false := by
  have kp := Release_prefix_calls W fuel tok s s1 s2 s3 s4 ev1 ev2 ev4 _ built _ exportErr
    hcheck hbuild hauth
  have k5 := CreateRelease_ok_events W g _ s4 s5 release ev5 hcreate
  have k6 := UploadAsset_calls W g releaseID path s5
  rw [hupload] at k6
  have k6c : ∀ ev ∈ ev6, ev.call.isCreateRelease = false ∧ ev.call.isPublish = false := by
    intro ev hev
    have := k6 ev hev
    cases hc : ev.call <;> simp_all [Call.isCreateRelease, Call.isUploadAsset, Call.isPublish]
  refine ⟨_, ?_, rfl, UploadAsset_error_distinct W g releaseID path s5 s6 e ev6 hupload,
    ?_, ?_, ?_⟩
  · simp [Release, hcheck, hbuild, hexport, hauth, hcreate, hid, hupload]
  · obtain ⟨pre, last, h1, h2, h3, _⟩ := UploadAsset_fail_events W g releaseID path s5 s6 e ev6
      hupload
    exact ⟨pre, last, h1, h2, h3⟩
  · rw [List.filter_append, List.filter_append,
      filter_eq_nil_of_false _ _ (fun x hx => (kp x hx).1),
      filter_eq_nil_of_false _ _ (fun x hx => (k6c x hx).1), k5]
    simp [Call.isCreateRelease]
  · intro ev hev
    rw [List.mem_append, List.mem_append] at hev
    rcases hev with (h | h) | h
    · exact (kp ev h).2.2.1
    · rw [k5] at h
      simp only [List.mem_singleton] at h
      subst h
      rfl
    · exact (k6c ev h).2

/-! ## C5: the second publish fails -/

/-- C5. When the conflict check passes with version `v`, the release is created, the asset
    is uploaded, the publish under the tag "latest" succeeds and the publish under the tag
    `v` fails with the error `e`, `Release` returns exactly `e`, the failed publish is the
    last call of the run, and the image publishes of the run are exactly two, in this order:
    the successful one under "latest", made once, and the failed one under `v`. -/
theorem Release_second_publish_fails {σ : Type} (W : World σ) (fuel : Nat) (ghUser : String)
    (tok : Secret) (s s1 s2 s3 s4 s5 s6 s7 s8 : σ) (ev1 ev2 ev4 ev5 ev6 : List Event)
    (v : String) (built : Container) (path : String) (exportErr : GoError) (g : Github)
    (release : RepositoryRelease) (releaseID : Int) (info1 info2 e : String)
    (hcheck : CheckVersionConflict W fuel tok s = some ((v, none), s1, ev1))
    (hbuild : BuildRuntimeImage W s1 = (built, s2, ev2))
    (hexport : W.fileExport
        ((built.WithLabel "org.opencontainers.image.version" v).WithRegistryAuth
          "ghcr.io" ghUser tok)
        "./confluence-updater-x86_64-unknown-linux-musl" s2 = ((path, exportErr), s3))
    (hauth : WithAuthToken W NewGithubClient tok s3 = (.ok g, s4, ev4))
    (hcreate : CreateRelease W g ("v" ++ v) s4 = (.ok release, s5, ev5))
    (hid : release.ID = some releaseID)
    (hupload : UploadAsset W g releaseID path s5 = (none, s6, ev6))
    (hlatest : W.publish
        ((built.WithLabel "org.opencontainers.image.version" v).WithRegistryAuth
          "ghcr.io" ghUser tok)
        "ghcr.io/kerwood/confluence-updater:latest" s6 = ((info1, none), s7))
    (hversion : W.publish
        ((built.WithLabel "org.opencontainers.image.version" v).WithRegistryAuth
          "ghcr.io" ghUser tok)
        ("ghcr.io/kerwood/confluence-updater:" ++ v) s7 = ((info2, some e), s8)) :
    ∃ trace : List Event,
      Release W fuel ghUser tok s = some (.returned (some e), s8, trace) ∧
      trace = ev1 ++ ev2 ++ [⟨.fileExport "./confluence-updater-x86_64-unknown-linux-musl",
            exportErr⟩] ++ ev4 ++ ev5 ++ ev6 ++
        [⟨.publish ((built.WithLabel "org.opencontainers.image.version" v).WithRegistryAuth
            "ghcr.io" ghUser tok) "ghcr.io/kerwood/confluence-updater:latest", none⟩,
         ⟨.println info1, none⟩,
         ⟨.publish ((built.WithLabel "org.opencontainers.image.version" v).WithRegistryAuth
            "ghcr.io" ghUser tok) ("ghcr.io/kerwood/confluence-updater:" ++ v), some e⟩] ∧
      trace.filter (fun ev => ev.call.isPublish) =
        [⟨.publish ((built.WithLabel "org.opencontainers.image.version" v).WithRegistryAuth
            "ghcr.io" ghUser tok) "ghcr.io/kerwood/confluence-updater:latest", none⟩,
         ⟨.publish ((built.WithLabel "org.opencontainers.image.version" v).WithRegistryAuth
            "ghcr.io" ghUser tok) ("ghcr.io/kerwood/confluence-updater:" ++ v), some e⟩] := by
  have kp := Release_prefix_calls W fuel tok s s1 s2 s3 s4 ev1 ev2 ev4 _ built _ exportErr
    hcheck hbuild hauth
  have k5 := CreateRelease_ok_events W g _ s4 s5 release ev5 hcreate
  have k6 := UploadAsset_ok_events W g releaseID path s5 s6 ev6 hupload
  refine ⟨_, ?_, rfl, ?_⟩
  · simp [Release, hcheck, hbuild, hexport, hauth, hcreate, hid, hupload,
      publishTags, hlatest, hversion]
  · rw [List.filter_append, List.filter_append, List.filter_append,
      filter_eq_nil_of_false _ _ (fun x hx => (kp x hx).2.2.1), k5, k6]
    simp [Call.isPublish]

/-! ## C9: the successful release -/

/-- C9. When the manifest declares version `v`, the tag listing returns a list `T` that does
    not contain the string "v" followed by `v`, and every later stage succeeds, `Release`
    returns nil, and the calls of the run that the host or the registry can see are exactly
    these four, in this order, each made once: the creation of a release whose tag name is
    "v" followed by `v`, the upload of the exported binary to the ID of the release that
    creation returned, the publish of the built image under "latest", and the publish of
    the same image under `v`. -/
theorem Release_success {σ : Type} (W : World σ) (fuel : Nat) (ghUser : String)
    (tok : Secret) (s t1 t2 s1 s2 s3 s4 s5 s6 s7 s8 : σ)
    (c1 c2 c3 ev2 ev4 ev5 ev6 : List Event) (v : String) (T : List String) (g0 : Github)
    (built : Container) (path : String) (g : Github)
    (release : RepositoryRelease) (releaseID : Int) (info1 info2 : String)
    (hver : getCargoVersion W "./Cargo.toml" s = ((v, none), t1, c1))
    (hauth0 : WithAuthToken W NewGithubClient tok t1 = (.ok g0, t2, c2))
    (hlist : ListTags W g0 fuel t2 = some ((T, none), s1, c3))
    (hfree : "v" ++ v ∉ T)
    (hbuild : BuildRuntimeImage W s1 = (built, s2, ev2))
    (hexport : W.fileExport
        ((built.WithLabel "org.opencontainers.image.version" v).WithRegistryAuth
          "ghcr.io" ghUser tok)
        "./confluence-updater-x86_64-unknown-linux-musl" s2 = ((path, none), s3))
    (hauth : WithAuthToken W NewGithubClient tok s3 = (.ok g, s4, ev4))
    (hcreate : CreateRelease W g ("v" ++ v) s4 = (.ok release, s5, ev5))
    (hid : release.ID = some releaseID)
    (hupload : UploadAsset W g releaseID path s5 = (none, s6, ev6))
    (hlatest : W.publish
        ((built.WithLabel "org.opencontainers.image.version" v).WithRegistryAuth
          "ghcr.io" ghUser tok)
        "ghcr.io/kerwood/confluence-updater:latest" s6 = ((info1, none), s7))
    (hversion : W.publish
        ((built.WithLabel "org.opencontainers.image.version" v).WithRegistryAuth
          "ghcr.io" ghUser tok)
        ("ghcr.io/kerwood/confluence-updater:" ++ v) s7 = ((info2, none), s8)) :
    ∃ trace : List Event,
      Release W fuel ghUser tok s = some (.returned none, s8, trace) ∧
      trace = (c1 ++ c2 ++ c3) ++ ev2 ++
        [⟨.fileExport "./confluence-updater-x86_64-unknown-linux-musl", none⟩] ++
        ev4 ++ ev5 ++ ev6 ++
        [⟨.publish ((built.WithLabel "org.opencontainers.image.version" v).WithRegistryAuth
            "ghcr.io" ghUser tok) "ghcr.io/kerwood/confluence-updater:latest", none⟩,
         ⟨.println info1, none⟩,
         ⟨.publish ((built.WithLabel "org.opencontainers.image.version" v).WithRegistryAuth
            "ghcr.io" ghUser tok) ("ghcr.io/kerwood/confluence-updater:" ++ v), none⟩,
         ⟨.println info2, none⟩] ∧
      trace.filter (fun ev => ev.call.isHostVisible) =
        [⟨.createRelease (releaseDraft ("v" ++ v)), none⟩,
         ⟨.uploadReleaseAsset releaseID (splitFile path) path, none⟩,
         ⟨.publish ((built.WithLabel "org.opencontainers.image.version" v).WithRegistryAuth
            "ghcr.io" ghUser tok) "ghcr.io/kerwood/confluence-updater:latest", none⟩,
         ⟨.publish ((built.WithLabel "org.opencontainers.image.version" v).WithRegistryAuth
            "ghcr.io" ghUser tok) ("ghcr.io/kerwood/confluence-updater:" ++ v), none⟩] ∧
      (releaseDraft ("v" ++ v)).TagName = some ("v" ++ v) := by
  have hcheck : CheckVersionConflict W fuel tok s = some ((v, none), s1, c1 ++ c2 ++ c3) := by
    simp [CheckVersionConflict, hver, hauth0, hlist, checkTags_free v T hfree]
  have kp := Release_prefix_calls W fuel tok s s1 s2 s3 s4 (c1 ++ c2 ++ c3) ev2 ev4 _ built _
    none hcheck hbuild hauth
  have k5 := CreateRelease_ok_events W g _ s4 s5 release ev5 hcreate
  have k6 := UploadAsset_ok_events W g releaseID path s5 s6 ev6 hupload
  refine ⟨_, ?_, rfl, ?_, rfl⟩
  · simp [Release, hcheck, hbuild, hexport, hauth, hcreate, hid, hupload,
      publishTags, hlatest, hversion]
  · rw [List.filter_append, List.filter_append, List.filter_append,
      filter_eq_nil_of_false _ _ (fun x hx => (kp x hx).2.2.2), k5, k6]
    simp [Call.isHostVisible]

/-! ## C3: the error of the export is dropped -/

/-- C3 (the code at a failing input). In the simulated world where only the export of the
    binary fails, `Release` does not stop at the export: it goes on to create the release
    `v2.0.1` on the host, and ends with the error of `UploadAsset`, which cannot open the
    empty path the failed export returned. -/
theorem Release_export_error_ignored :
    ∃ r : Outcome × Nat × List Event,
      Release (simWorld { simOk [["v1.0.0"]] with exportFails := true }) 1 "kerwood" ⟨0⟩ 0
        = some r ∧
      (⟨.fileExport "./confluence-updater-x86_64-unknown-linux-musl", some "export failed"⟩ :
        Event) ∈ r.2.2 ∧
      (⟨.createRelease (releaseDraft "v2.0.1"), none⟩ : Event) ∈ r.2.2 ∧
      r.1 = .returned (some "unable to read asset file: open : no such file or directory") :=
  ⟨_, rfl, by decide, by decide, by decide⟩

/-! ## C7: the tag listing follows the pages to the end -/

theorem pageNumber_pred (i : Nat) : pageNumber i - 1 = i := by
  unfold pageNumber
  split <;> omega

theorem pageNumber_succ (i : Nat) : pageNumber (i + 1) = i + 2 := by
  simp [pageNumber]

theorem ListTagsLoop_served {σ : Type} (W : World σ) (g : Github) (pages : List (List String))
    (hhost : ∀ (opts : ListOptions) (s : σ), (W.listTags g opts s).1 =
      ((servePage pages opts.Page).1, (servePage pages opts.Page).2, none)) :
    ∀ (n i perPage fuel : Nat) (allTags : List String) (s : σ),
      i + n + 1 = pages.length → n + 1 ≤ fuel →
      ∃ s1, ListTagsLoop W g fuel ⟨pageNumber i, perPage⟩ allTags s =
        some ((allTags ++ (pages.drop i).flatten, none), s1,
          (List.range' i (n + 1)).map
            (fun j => (⟨.listTags ⟨pageNumber j, perPage⟩, none⟩ : Event))) := by
  intro n
  induction n with
  | zero =>
    intro i perPage fuel allTags s hlen hfuel
    obtain ⟨f, rfl⟩ : ∃ f, fuel = f + 1 := ⟨fuel - 1, by omega⟩
    have hi : i < pages.length := by omega
    have hW : W.listTags g ⟨pageNumber i, perPage⟩ s =
        ((pages[i], 0, none), (W.listTags g ⟨pageNumber i, perPage⟩ s).2) := by
      apply Prod.ext
      · rw [hhost]
        simp only [servePage, pageNumber_pred]
        rw [List.getD_eq_getElem _ _ hi]
        have : ¬ (i + 1 < pages.length) := by omega
        simp [this]
      · rfl
    refine ⟨(W.listTags g ⟨pageNumber i, perPage⟩ s).2, ?_⟩
    rw [ListTagsLoop, hW]
    have hdrop : (pages.drop i).flatten = pages[i] := by
      rw [List.drop_eq_getElem_cons hi, List.drop_of_length_le (by omega)]
      simp
    simp [hdrop]
  | succ n ih =>
    intro i perPage fuel allTags s hlen hfuel
    obtain ⟨f, rfl⟩ : ∃ f, fuel = f + 1 := ⟨fuel - 1, by omega⟩
    have hi : i < pages.length := by omega
    have hW : W.listTags g ⟨pageNumber i, perPage⟩ s =
        ((pages[i], i + 2, none), (W.listTags g ⟨pageNumber i, perPage⟩ s).2) := by
      apply Prod.ext
      · rw [hhost]
        simp only [servePage, pageNumber_pred]
        rw [List.getD_eq_getElem _ _ hi]
        have : i + 1 < pages.length := by omega
        simp [this]
      · rfl
    obtain ⟨s2, h2⟩ := ih (i + 1) perPage f (allTags ++ pages[i])
      (W.listTags g ⟨pageNumber i, perPage⟩ s).2 (by omega) (by omega)
    rw [pageNumber_succ] at h2
    refine ⟨s2, ?_⟩
    rw [ListTagsLoop, hW]
    have hdrop : (pages.drop i).flatten = pages[i] ++ (pages.drop (i + 1)).flatten := by
      rw [List.drop_eq_getElem_cons hi, List.flatten_cons]
    simp only [Nat.add_eq_zero, OfNat.ofNat_ne_zero, and_false, if_false, h2]
    rw [hdrop, List.range'_succ i (n + 1)]
    simp

/-- C7. For every paginated host whose pages `pages` (at least one) hold distinct tags, each
    page fetch succeeding and carrying the number of the next page, 0 on the last one,
    `ListTags` returns (once `fuel` allows as many fetches as there are pages): it fetches
    the pages in order, each once, stops after the last one, and returns with a nil error
    the concatenation of the pages, a list in which every tag of the host occurs exactly
    once and nothing else occurs. -/
theorem ListTags_complete {σ : Type} (W : World σ) (g : Github) (pages : List (List String))
    (fuel : Nat) (s : σ)
    (hne : pages ≠ [])
    (hhost : ∀ (opts : ListOptions) (s : σ), (W.listTags g opts s).1 =
      ((servePage pages opts.Page).1, (servePage pages opts.Page).2, none))
    (hdistinct : pages.flatten.Nodup)
    (hfuel : pages.length ≤ fuel) :
    ∃ (tags : List String) (s1 : σ),
      ListTags W g fuel s = some ((tags, none), s1,
        (List.range pages.length).map
          (fun i => (⟨.listTags ⟨pageNumber i, 100⟩, none⟩ : Event))) ∧
      tags = pages.flatten ∧
      tags.Nodup ∧
      (∀ t, t ∈ tags ↔ ∃ page ∈ pages, t ∈ page) ∧
      ∀ t, (∃ page ∈ pages, t ∈ page) → tags.count t = 1 := by
  have hpos : 0 < pages.length := List.length_pos.mpr hne
  obtain ⟨s1, h1⟩ := ListTagsLoop_served W g pages hhost (pages.length - 1) 0 100 fuel [] s
    (by omega) (by omega)
  have hlen : pages.length - 1 + 1 = pages.length := by omega
  rw [hlen] at h1
  refine ⟨pages.flatten, s1, ?_, rfl, hdistinct, ?_, ?_⟩
  · rw [List.range_eq_range']
    simpa [ListTags, pageNumber] using h1
  · intro t
    exact List.mem_flatten
  · intro t ht
    exact List.count_eq_one_of_mem hdistinct (List.mem_flatten.mpr ht)

theorem simTag_injective : Function.Injective simTag := by
  intro i j h
  have := congrArg String.length h
  simpa [simTag, String.length] using this

theorem pages150_flatten : pages150.flatten = (List.range 150).map simTag := by
  have h : List.range 150 = List.range 100 ++ List.range' 100 50 := by decide
  rw [h, List.map_append]
  simp [pages150]

/-- C7 on a host of 150 distinct tags served as a page of 100 and a page of 50. -/
theorem ListTags_complete_witness :
    ∃ (tags : List String) (s1 : Nat),
      ListTags (simWorld (simOk pages150)) NewGithubClient 2 0 = some ((tags, none), s1,
        (List.range pages150.length).map
          (fun i => (⟨.listTags ⟨pageNumber i, 100⟩, none⟩ : Event))) ∧
      tags = pages150.flatten ∧
      tags.Nodup ∧
      (∀ t, t ∈ tags ↔ ∃ page ∈ pages150, t ∈ page) ∧
      ∀ t, (∃ page ∈ pages150, t ∈ page) → tags.count t = 1 :=
  ListTags_complete (simWorld (simOk pages150)) NewGithubClient pages150 2 0
    (by simp [pages150])
    (fun _ _ => rfl)
    (by rw [pages150_flatten]; exact (List.nodup_range 150).map simTag_injective)
    (by simp [pages150])

/-! ## C8: the tag listing is all-or-nothing -/

theorem ListTagsLoop_failed {σ : Type} (W : World σ) (g : Github) (pages : List (List String))
    (k : Nat) (err : String) (hk : k < pages.length)
    (hbefore : ∀ (opts : ListOptions) (s : σ), opts.Page - 1 < k →
      (W.listTags g opts s).1 =
        ((servePage pages opts.Page).1, (servePage pages opts.Page).2, none))
    (hfail : ∀ (opts : ListOptions) (s : σ), opts.Page - 1 = k →
      (W.listTags g opts s).1.2.2 = some err) :
    ∀ (m i perPage fuel : Nat) (allTags : List String) (s : σ),
      i + m = k → m + 1 ≤ fuel →
      ∃ s1, ListTagsLoop W g fuel ⟨pageNumber i, perPage⟩ allTags s =
        some (([], some ("Failed to list tags: " ++ err)), s1,
          (List.range' i m).map
            (fun j => (⟨.listTags ⟨pageNumber j, perPage⟩, none⟩ : Event)) ++
          [⟨.listTags ⟨pageNumber k, perPage⟩, some err⟩]) := by
  intro m
  induction m with
  | zero =>
    intro i perPage fuel allTags s hik hfuel
    obtain ⟨f, rfl⟩ : ∃ f, fuel = f + 1 := ⟨fuel - 1, by omega⟩
    have hi : i = k := by omega
    subst hi
    have hf := hfail ⟨pageNumber i, perPage⟩ s (pageNumber_pred i)
    refine ⟨(W.listTags g ⟨pageNumber i, perPage⟩ s).2, ?_⟩
    rw [ListTagsLoop]
    rcases hW : W.listTags g ⟨pageNumber i, perPage⟩ s with ⟨⟨tags, next, e⟩, s1⟩
    rw [hW] at hf
    simp only at hf
    subst hf
    simp
  | succ m ih =>
    intro i perPage fuel allTags s hik hfuel
    obtain ⟨f, rfl⟩ : ∃ f, fuel = f + 1 := ⟨fuel - 1, by omega⟩
    have hi : i < pages.length := by omega
    have hW : W.listTags g ⟨pageNumber i, perPage⟩ s =
        ((pages[i], i + 2, none), (W.listTags g ⟨pageNumber i, perPage⟩ s).2) := by
      apply Prod.ext
      · rw [hbefore _ _ (by simp only [pageNumber_pred]; omega)]
        simp only [servePage, pageNumber_pred]
        rw [List.getD_eq_getElem _ _ hi]
        have : i + 1 < pages.length := by omega
        simp [this]
      · rfl
    obtain ⟨s2, h2⟩ := ih (i + 1) perPage f (allTags ++ pages[i])
      (W.listTags g ⟨pageNumber i, perPage⟩ s).2 (by omega) (by omega)
    rw [pageNumber_succ] at h2
    refine ⟨s2, ?_⟩
    rw [ListTagsLoop, hW]
    simp only [Nat.add_eq_zero, OfNat.ofNat_ne_zero, and_false, if_false, h2]
    rw [List.range'_succ i m]
    simp

/-- C8. For every sequence of pages of which the pages before the page of index `k` are
    fetched successfully and the fetch of the page of index `k` fails with the error `err`,
    `ListTags` returns (once `fuel` allows `k + 1` fetches) the nil list together with an
    error carrying `err`: the tags of the earlier pages are not returned, and the failed
    fetch is the last call made, so no page after `k` is fetched. -/
theorem ListTags_all_or_nothing {σ : Type} (W : World σ) (g : Github)
    (pages : List (List String)) (k : Nat) (err : String) (fuel : Nat) (s : σ)
    (hk : k < pages.length)
    (hbefore : ∀ (opts : ListOptions) (s : σ), opts.Page - 1 < k →
      (W.listTags g opts s).1 =
        ((servePage pages opts.Page).1, (servePage pages opts.Page).2, none))
    (hfail : ∀ (opts : ListOptions) (s : σ), opts.Page - 1 = k →
      (W.listTags g opts s).1.2.2 = some err)
    (hfuel : k + 1 ≤ fuel) :
    ∃ s1 : σ,
      ListTags W g fuel s =
        some (([], some ("Failed to list tags: " ++ err)), s1,
          (List.range k).map (fun i => (⟨.listTags ⟨pageNumber i, 100⟩, none⟩ : Event)) ++
          [⟨.listTags ⟨pageNumber k, 100⟩, some err⟩]) := by
  obtain ⟨s1, h1⟩ := ListTagsLoop_failed W g pages k err hk hbefore hfail k 0 100 fuel [] s
    (by omega) (by omega)
  refine ⟨s1, ?_⟩
  rw [List.range_eq_range']
  simpa [ListTags, pageNumber] using h1

/-- C8 on three pages of which the second fails. -/
theorem ListTags_all_or_nothing_witness :
    ∃ s1 : Nat,
      ListTags
          (simWorld { simOk [["v1.0.0"], ["v2.0.0"], ["v3.0.0"]] with failPage := some 1 })
          NewGithubClient 2 0 =
        some (([], some ("Failed to list tags: " ++ "502 Bad Gateway")), s1,
          (List.range 1).map (fun i => (⟨.listTags ⟨pageNumber i, 100⟩, none⟩ : Event)) ++
          [⟨.listTags ⟨pageNumber 1, 100⟩, some "502 Bad Gateway"⟩]) :=
  ListTags_all_or_nothing
    (simWorld { simOk [["v1.0.0"], ["v2.0.0"], ["v3.0.0"]] with failPage := some 1 })
    NewGithubClient [["v1.0.0"], ["v2.0.0"], ["v3.0.0"]] 1 "502 Bad Gateway" 2 0
    (by decide)
    (fun opts _ h => by
      have hne : ¬ (1 = opts.Page - 1) := by omega
      simp [simWorld, simOk, hne])
    (fun opts _ h => by simp [simWorld, simOk, h])
    (by decide)

/-! ## Witnesses of C4, C5, C6 and C9 in the simulated world -/

/-- C6 in the simulated world whose host rejects the release creation. -/
theorem Release_createRelease_fails_witness :
    ∃ trace : List Event,
      Release (simWorld { simOk [["v1.0.0"]] with createFails := true }) 1 "kerwood" ⟨0⟩ 0 =
        some (.returned
          (some "failed to create release: Validation Failed. Github response: 422"),
          7, trace) ∧
      ∀ ev ∈ trace, ev.call.isUploadAsset = false ∧ ev.call.isPublish = false :=
  ⟨_, Release_createRelease_fails
    (simWorld { simOk [["v1.0.0"]] with createFails := true }) 1 "kerwood" ⟨0⟩
    0 3 4 5 6 7 simCheckEvents
    [⟨.buildRuntimeImage "2025-01-01 00:00:00 +0000 UTC", none⟩]
    [⟨.plaintext ⟨0⟩, none⟩]
    [⟨.createRelease (releaseDraft "v2.0.1"), some "Validation Failed"⟩]
    "2.0.1" simBuilt "./confluence-updater-x86_64-unknown-linux-musl" none simGithub
    "failed to create release: Validation Failed. Github response: 422"
    (by decide) (by decide) (by decide) (by rfl) (by rfl)⟩

/-- C4 in the simulated world whose host rejects the asset upload. -/
theorem Release_uploadAsset_fails_witness :
    ∃ trace : List Event,
      Release (simWorld { simOk [["v1.0.0"]] with uploadFails := true }) 1 "kerwood" ⟨0⟩ 0 =
        some (.returned
          (some "failed to upload asset file: upload rejected. Github response: 422"),
          9, trace) ∧
      trace.filter (fun ev => ev.call.isCreateRelease) =
        [⟨.createRelease (releaseDraft ("v" ++ "2.0.1")), none⟩] ∧
      ∀ ev ∈ trace, ev.call.isPublish = false :=
  match Release_uploadAsset_fails
    (simWorld { simOk [["v1.0.0"]] with uploadFails := true }) 1 "kerwood" ⟨0⟩
    0 3 4 5 6 7 9 simCheckEvents
    [⟨.buildRuntimeImage "2025-01-01 00:00:00 +0000 UTC", none⟩]
    [⟨.plaintext ⟨0⟩, none⟩]
    [⟨.createRelease (releaseDraft "v2.0.1"), none⟩]
    [⟨.osOpen "./confluence-updater-x86_64-unknown-linux-musl", none⟩,
     ⟨.uploadReleaseAsset 42 "confluence-updater-x86_64-unknown-linux-musl"
        "./confluence-updater-x86_64-unknown-linux-musl", some "upload rejected"⟩]
    "2.0.1" simBuilt "./confluence-updater-x86_64-unknown-linux-musl" none simGithub
    { releaseDraft "v2.0.1" with ID := some 42 } 42
    "failed to upload asset file: upload rejected. Github response: 422"
    (by decide) (by decide) (by decide) (by rfl) (by rfl) (by rfl) (by decide) with
  | ⟨trace, h1, _, _, _, h5, h6⟩ => ⟨trace, h1, h5, h6⟩

/-- C5 for the target tags "latest" and "2.0.1", the registry rejecting the second. -/
theorem Release_second_publish_fails_witness :
    ∃ trace : List Event,
      Release
          (simWorld { simOk [["v1.0.0"]] with
            publishFails := ["ghcr.io/kerwood/confluence-updater:2.0.1"] })
          1 "kerwood" ⟨0⟩ 0 =
        some (.returned (some "push failed: ghcr.io/kerwood/confluence-updater:2.0.1"),
          11, trace) ∧
      (trace.filter (fun ev => ev.call.isPublish)).map (fun ev => ev.err) =
        [none, some "push failed: ghcr.io/kerwood/confluence-updater:2.0.1"] :=
  match Release_second_publish_fails
    (simWorld { simOk [["v1.0.0"]] with
      publishFails := ["ghcr.io/kerwood/confluence-updater:2.0.1"] })
    1 "kerwood" ⟨0⟩
    0 3 4 5 6 7 9 10 11 simCheckEvents
    [⟨.buildRuntimeImage "2025-01-01 00:00:00 +0000 UTC", none⟩]
    [⟨.plaintext ⟨0⟩, none⟩]
    [⟨.createRelease (releaseDraft "v2.0.1"), none⟩]
    [⟨.osOpen "./confluence-updater-x86_64-unknown-linux-musl", none⟩,
     ⟨.uploadReleaseAsset 42 "confluence-updater-x86_64-unknown-linux-musl"
        "./confluence-updater-x86_64-unknown-linux-musl", none⟩]
    "2.0.1" simBuilt "./confluence-updater-x86_64-unknown-linux-musl" none simGithub
    { releaseDraft "v2.0.1" with ID := some 42 } 42
    "ghcr.io/kerwood/confluence-updater:latest@sha256:0" ""
    "push failed: ghcr.io/kerwood/confluence-updater:2.0.1"
    (by decide) (by decide) (by decide) (by rfl) (by rfl) (by rfl) (by decide)
    (by decide) (by decide) with
  | ⟨trace, h1, _, h3⟩ => ⟨trace, h1, by rw [h3]; rfl⟩

/-- C9 for version 2.0.1 over an empty tag set: the release is created for the target tag
    `v2.0.1`. -/
theorem Release_success_witness :
    ∃ trace : List Event,
      Release (simWorld (simOk [[]])) 1 "kerwood" ⟨0⟩ 0 = some (.returned none, 11, trace) ∧
      (trace.filter (fun ev => ev.call.isHostVisible)).map (fun ev => ev.call) =
        [.createRelease (releaseDraft "v2.0.1"),
         .uploadReleaseAsset 42 "confluence-updater-x86_64-unknown-linux-musl"
            "./confluence-updater-x86_64-unknown-linux-musl",
         .publish ((simBuilt.WithLabel "org.opencontainers.image.version"
            "2.0.1").WithRegistryAuth "ghcr.io" "kerwood" ⟨0⟩)
            "ghcr.io/kerwood/confluence-updater:latest",
         .publish ((simBuilt.WithLabel "org.opencontainers.image.version"
            "2.0.1").WithRegistryAuth "ghcr.io" "kerwood" ⟨0⟩)
            "ghcr.io/kerwood/confluence-updater:2.0.1"] :=
  match Release_success (simWorld (simOk [[]])) 1 "kerwood" ⟨0⟩
    0 1 2 3 4 5 6 7 9 10 11
    [⟨.contents "./Cargo.toml", none⟩] [⟨.plaintext ⟨0⟩, none⟩] [⟨.listTags ⟨0, 100⟩, none⟩]
    [⟨.buildRuntimeImage "2025-01-01 00:00:00 +0000 UTC", none⟩]
    [⟨.plaintext ⟨0⟩, none⟩]
    [⟨.createRelease (releaseDraft "v2.0.1"), none⟩]
    [⟨.osOpen "./confluence-updater-x86_64-unknown-linux-musl", none⟩,
     ⟨.uploadReleaseAsset 42 "confluence-updater-x86_64-unknown-linux-musl"
        "./confluence-updater-x86_64-unknown-linux-musl", none⟩]
    "2.0.1" [] simGithub simBuilt "./confluence-updater-x86_64-unknown-linux-musl" simGithub
    { releaseDraft "v2.0.1" with ID := some 42 } 42
    "ghcr.io/kerwood/confluence-updater:latest@sha256:0"
    "ghcr.io/kerwood/confluence-updater:2.0.1@sha256:0"
    (by decide) (by rfl) (by decide) (by decide) (by decide) (by decide) (by rfl) (by rfl)
    (by rfl) (by decide) (by decide) (by decide) with
  | ⟨trace, h1, _, h3, _⟩ => ⟨trace, h1, by rw [h3]; rfl⟩

/-! ## C10: the version read from the manifest -/

/-- C10 (counterexample). For the manifest whose `package.version` is the empty string,
    `getCargoVersion` returns successfully (nil error) and the version it returns is the
    empty string. -/
theorem getCargoVersion_empty_version :
    simToml.Load manifestEmptyVersion =
        .ok [("package.name", "confluence-updater"), ("package.version", "")] ∧
      (getCargoVersion (simWorld { simOk [] with manifest := manifestEmptyVersion })
        "./Cargo.toml" 0).1 = ("", none) :=
  ⟨rfl, by decide⟩

/-- C10 (amended). Whenever `getCargoVersion` returns successfully, the manifest was read
    and parsed, the key path `package.version` is present in it, and the version returned
    is the rendering of the value found there (which may be the empty string); so a
    manifest that cannot be read or parsed, or in which the key path is absent, yields an
    error and never a version. -/
theorem getCargoVersion_ok_present {σ : Type} (W : World σ) (cargoFile : String) (s : σ)
    (v : String) (h : (getCargoVersion W cargoFile s).1 = (v, none)) :
    ∃ (content : String) (tree : W.toml.Tree) (value : W.toml.Value),
      (W.contents cargoFile s).1 = (content, none) ∧
      W.toml.Load content = .ok tree ∧
      W.toml.Get tree "package.version" = some value ∧
      v = W.toml.Sprint value := by
  unfold getCargoVersion at h
  split at h
  · simp at h
  · next content s1 hc =>
    split at h
    · simp at h
    · next tree hl =>
      split at h
      · simp at h
      · next value hg =>
        simp only [Prod.mk.injEq, and_true] at h
        exact ⟨content, tree, value, by rw [hc], hl, hg, h.symm⟩

/-- C10 (amended) on the manifest declaring version 2.0.1. -/
theorem getCargoVersion_ok_present_witness :
    ∃ (content : String) (tree : List (String × String)) (value : String),
      ((simWorld (simOk [])).contents "./Cargo.toml" 0).1 = (content, none) ∧
      simToml.Load content = .ok tree ∧
      simToml.Get tree "package.version" = some value ∧
      "2.0.1" = simToml.Sprint value :=
  getCargoVersion_ok_present (simWorld (simOk [])) "./Cargo.toml" 0 "2.0.1" (by decide)

end ConfluenceUpdater
